import Mathlib

/-!
Shallow embedding of the privilege-drop pipeline of `rust-privdrop`
(`src/privdrop.rs`, `src/errors.rs`).

The operating system (identity database and syscall layer) is modelled as
an oracle `OsEnv`.  Every embedded operation returns, in order, the list of
OS interactions it issues (`Event`s) together with its result, mirroring
the `Result`-based control flow of the source; `thenRun` plays the role of
the `?` operator.
-/

/-- `INITIAL_BUFFER_SIZE` (privdrop.rs line 11). -/
def INITIAL_BUFFER_SIZE : Nat := 4096

/-- `MAX_GROUPS` (privdrop.rs line 12); only used by `do_idchange` as a
capacity estimate for the supplementary-group vector, never as a bound. -/
def MAX_GROUPS : Nat := 256

/-- `libc::ENOENT`, tested by the lookup error branches. -/
def ENOENT : Int := 2

/-- `libc::ERANGE`, the buffer-too-small signal of `getpwnam_r` and
`getgrnam_r`. -/
def ERANGE : Int := 34

/-- One OS interaction performed by the pipeline.  The `query…` events are
identity-database reads (`getpwnam_r`, `getgrnam_r`, `getgrouplist`); the
`sys…` events are the process-state syscalls. -/
inductive Event where
  | queryUser (name : String)
  | queryGroup (name : String)
  | queryGroupList (name : String) (gid : Nat)
  | sysChdir (path : String)
  | sysChroot (path : String)
  | sysSetgroups (gids : List Nat)
  | sysSetgid (gid : Nat)
  | sysSetuid (uid : Nat)
  deriving DecidableEq

/-- `PrivDropError` (errors.rs lines 31-104): either a wrapped `nix` error
(from `setgid`/`setuid`, tagged here by the failing call) or a static
description.  The single `ErrorKind` variant `SysError` carries no
information and is omitted; the description string is the source's
message. -/
inductive PrivDropError where
  | fromNix (call : String)
  | withDescription (msg : String)
  deriving DecidableEq

deriving instance DecidableEq for Except

/-- The `uidcheck` failure (privdrop.rs lines 269-277); the specification
names this error `InsufficientPrivilege`. -/
def insufficientPrivilege : PrivDropError :=
  .withDescription "Starting this application requires root privileges"

/-- The oracle for the OS: effective uid, identity database and syscall
outcomes.  `pwRet`/`pwEnt` are the final (non-`ERANGE`) return code and
entry of `getpwnam_r` for a name, `grRet`/`grEnt` the same for
`getgrnam_r`, and `grouplist` the outcome of the `getgrouplist` sequence
(`none` models `ngroups <= 0` or a failing second call). -/
structure OsEnv where
  euid : Nat
  pwRet : String → Int
  pwEnt : String → Option (Nat × Nat)
  grRet : String → Int
  grEnt : String → Option Nat
  grouplist : String → Nat → Option (List Nat)
  chdirOk : String → Bool
  chrootOk : String → Bool
  setgroupsOk : List Nat → Bool
  setgidOk : Nat → Bool
  setuidOk : Nat → Bool

/-- The builder-accumulated configuration `PrivDrop` (privdrop.rs lines
73-81). -/
structure PrivDrop where
  chroot : Option String := none
  user : Option String := none
  group : Option String := none
  group_list : Option (List String) := none
  include_default_supplementary_groups : Bool := false
  fallback_to_ids_if_names_are_numeric : Bool := false
  deriving DecidableEq

/-- The intermediate `UserIds` (privdrop.rs lines 83-88). -/
structure UserIds where
  uid : Option Nat := none
  gid : Option Nat := none
  group_list : Option (List Nat) := none
  deriving DecidableEq

/-- `CString::new` succeeds exactly when the byte string has no interior
NUL byte. -/
def validCName (s : String) : Bool := !(s.toList.contains (Char.ofNat 0))

/-- Decimal-digit accumulator for `parseU32`: `none` on any non-digit
character. -/
def parseDigits : List Char → Nat → Option Nat
  | [], acc => some acc
  | c :: cs, acc =>
      if c.isDigit then parseDigits cs (acc * 10 + (c.toNat - 48)) else none

/-- `str::parse::<u32>` (`libc::uid_t` / `libc::gid_t` are 32-bit):
an optional leading `+`, then one or more decimal digits, value below
`2 ^ 32`. -/
def parseU32 (s : String) : Option Nat :=
  let cs := match s.toList with
            | '+' :: rest => rest
            | l => l
  match cs with
  | [] => none
  | _ =>
      match parseDigits cs 0 with
      | some n => if n < 2 ^ 32 then some n else none
      | none => none

/-- Sequencing of two traced fallible steps: the embedding of the `?`
operator.  The second step runs only when the first succeeds; events
accumulate in order. -/
def thenRun {α β : Type} (a : List Event × Except PrivDropError α)
    (f : α → List Event × Except PrivDropError β) :
    List Event × Except PrivDropError β :=
  match a with
  | (ev, .error e) => (ev, .error e)
  | (ev, .ok x) => (ev ++ (f x).1, (f x).2)

/-- A single syscall: the event is recorded (the call is attempted) and the
oracle decides whether it succeeds. -/
def sysCall (ev : Event) (ok : Bool) (err : PrivDropError) :
    List Event × Except PrivDropError Unit :=
  ([ev], if ok then .ok () else .error err)

/-- The failure branch of `lookup_user` (privdrop.rs lines 338-372),
reached when `ret != 0 || pwent.is_null()`.  Names are Lean `String`s, so
the source's UTF-8 re-check cannot fail and is omitted. -/
def userLookupFailure (ret : Int) (fallback : Bool) (user : String) :
    Except PrivDropError UserIds :=
  if fallback = false then
    if ret ≠ 0 ∧ ret = ENOENT then .error (.withDescription "User not found")
    else if ret ≠ 0 then .error (.withDescription "Failed to look up user")
    else .error (.withDescription "User not found")
  else
    match parseU32 user with
    | some uid => .ok { uid := some uid, gid := none, group_list := none }
    | none =>
        .error (.withDescription "User not found and username is not a valid numeric ID")

/-- `PrivDrop::lookup_user` (privdrop.rs lines 303-382).  The `getpwnam_r`
buffer-growth loop is modelled separately (`lookupRetryLoop`); here the
oracle provides the loop's final return code and entry. -/
def lookup_user (env : OsEnv) (user : String) (fallback : Bool) :
    List Event × Except PrivDropError UserIds :=
  if validCName user = false then ([], .error (.withDescription "Invalid username"))
  else
    ([.queryUser user],
      match env.pwEnt user with
      | some (uid, gid) =>
          if env.pwRet user ≠ 0 then userLookupFailure (env.pwRet user) fallback user
          else .ok { uid := some uid, gid := some gid, group_list := none }
      | none => userLookupFailure (env.pwRet user) fallback user)

/-- The failure branch of `lookup_group` (privdrop.rs lines 465-496);
the source uses the same message for a non-UTF-8 name and for a name that
does not parse as a number. -/
def groupLookupFailure (ret : Int) (fallback : Bool) (group : String) :
    Except PrivDropError Nat :=
  if fallback = false then
    if ret ≠ 0 ∧ ret = ENOENT then .error (.withDescription "Group not found")
    else if ret ≠ 0 then .error (.withDescription "Failed to look up group")
    else .error (.withDescription "Group not found")
  else
    match parseU32 group with
    | some gid => .ok gid
    | none => .error (.withDescription "Group not found and group is not a valid number")

/-- `PrivDrop::lookup_group` (privdrop.rs lines 430-500). -/
def lookup_group (env : OsEnv) (group : String) (fallback : Bool) :
    List Event × Except PrivDropError Nat :=
  if validCName group = false then ([], .error (.withDescription "Invalid group name"))
  else
    ([.queryGroup group],
      match env.grEnt group with
      | some gid =>
          if env.grRet group ≠ 0 then groupLookupFailure (env.grRet group) fallback group
          else .ok gid
      | none => groupLookupFailure (env.grRet group) fallback group)

/-- `PrivDrop::default_group_list` (privdrop.rs lines 384-428): a
`getgrouplist` query.  The oracle's `none` covers both `ngroups <= 0` and
a failing second call, which the source maps to `Ok(None)` — never an
error beyond the `CString` check. -/
def default_group_list (env : OsEnv) (user : String) (gid : Nat) :
    List Event × Except PrivDropError (Option (List Nat)) :=
  if validCName user = false then ([], .error (.withDescription "Invalid username"))
  else ([.queryGroupList user gid], .ok (env.grouplist user gid))

/-- The `for group in group_list` loop of `lookup_ids` (privdrop.rs lines
516-525): resolve each name in order, failing fast. -/
def lookup_group_seq (env : OsEnv) (fallback : Bool) :
    List String → List Event × Except PrivDropError (List Nat)
  | [] => ([], .ok [])
  | g :: gs =>
      thenRun (lookup_group env g fallback) (fun gid =>
        thenRun (lookup_group_seq env fallback gs) (fun gids => ([], .ok (gid :: gids))))

/-- `PrivDrop::lookup_ids` (privdrop.rs lines 502-528): start from
`UserIds::default()`, replace it by the user lookup when a user is set,
overwrite the gid when a group is set, then resolve the group list. -/
def lookup_ids (env : OsEnv) (c : PrivDrop) :
    List Event × Except PrivDropError UserIds :=
  thenRun
    (match c.user with
     | some user => lookup_user env user c.fallback_to_ids_if_names_are_numeric
     | none => ([], .ok {}))
    (fun ids =>
      thenRun
        (match c.group with
         | some group =>
             thenRun (lookup_group env group c.fallback_to_ids_if_names_are_numeric)
               (fun gid => ([], .ok { ids with gid := some gid }))
         | none => ([], .ok ids))
        (fun ids2 =>
          match c.group_list with
          | some gl =>
              thenRun (lookup_group_seq env c.fallback_to_ids_if_names_are_numeric gl)
                (fun gids => ([], .ok { ids2 with group_list := some gids }))
          | none => ([], .ok ids2)))

/-- `PrivDrop::do_chroot` (privdrop.rs lines 279-301): when a chroot path
is configured, `uidcheck`, then `chdir(path)`, `chroot(path)` and
`chdir("/")`, each failure aborting immediately; the configuration is
returned with the path taken out (`self.chroot.take()`). -/
def do_chroot (env : OsEnv) (c : PrivDrop) :
    List Event × Except PrivDropError PrivDrop :=
  match c.chroot with
  | none => ([], .ok c)
  | some path =>
      if env.euid ≠ 0 then ([], .error insufficientPrivilege)
      else
        thenRun (sysCall (.sysChdir path) (env.chdirOk path)
            (.withDescription "Failed to change to chroot directory")) (fun _ =>
          thenRun (sysCall (.sysChroot path) (env.chrootOk path)
              (.withDescription "Failed to change root directory")) (fun _ =>
            thenRun (sysCall (.sysChdir "/") (env.chdirOk "/")
                (.withDescription "Failed to change to root directory after chroot")) (fun _ =>
              ([], .ok { c with chroot := none }))))

/-- The syscall tail of `do_idchange` (privdrop.rs lines 563-584): with a
primary gid, `setgroups` on the deduplicated `groups ++ [gid]` and then
`setgid gid`; afterwards `setuid` when a uid is present.  The source
deduplicates through a `HashSet` whose iteration order is unspecified;
`List.dedup` models the same set of gids. -/
def idSyscalls (env : OsEnv) (ids : UserIds) (groups : List Nat) :
    List Event × Except PrivDropError Unit :=
  thenRun
    (match ids.gid with
     | some gid =>
         thenRun (sysCall (.sysSetgroups ((groups ++ [gid]).dedup))
             (env.setgroupsOk ((groups ++ [gid]).dedup))
             (.withDescription "Unable to set supplementary groups")) (fun _ =>
           sysCall (.sysSetgid gid) (env.setgidOk gid) (.fromNix "setgid"))
     | none => ([], .ok ()))
    (fun _ =>
      match ids.uid with
      | some uid => sysCall (.sysSetuid uid) (env.setuidOk uid) (.fromNix "setuid")
      | none => ([], .ok ()))

/-- `PrivDrop::do_idchange` (privdrop.rs lines 530-585): `uidcheck`, then
— when default supplementary groups were requested — either the
`getgrouplist` query (user name and primary gid both present) or the
dedicated error, then the explicit group list and the syscall tail. -/
def do_idchange (env : OsEnv) (c : PrivDrop) (ids : UserIds) :
    List Event × Except PrivDropError Unit :=
  if env.euid ≠ 0 then ([], .error insufficientPrivilege)
  else
    thenRun
      (if c.include_default_supplementary_groups then
        match c.user, ids.gid with
        | some user, some gid =>
            thenRun (default_group_list env user gid) (fun dflt => ([], .ok (dflt.getD [])))
        | _, _ =>
            ([], .error (.withDescription
              "Unable to determine default supplementary groups without a user name and a base gid"))
       else ([], .ok []))
      (fun dfltGroups => idSyscalls env ids (dfltGroups ++ ids.group_list.getD []))

/-- `PrivDrop::preload` (privdrop.rs lines 249-267): libc warm-ups that
touch no identity database; its only fallible step, `CString::new("C")`,
cannot fail, so the embedding is a successful no-op. -/
def preload : List Event × Except PrivDropError Unit := ([], .ok ())

/-- `PrivDrop::apply` (privdrop.rs lines 242-247): preload, resolve all
configured names, chroot, then change identity. -/
def PrivDrop.apply (env : OsEnv) (c : PrivDrop) :
    List Event × Except PrivDropError Unit :=
  thenRun preload (fun _ =>
    thenRun (lookup_ids env c) (fun ids =>
      thenRun (do_chroot env c) (fun c2 => do_idchange env c2 ids)))

/-- The `getpwnam_r`/`getgrnam_r` buffer-growth loop (privdrop.rs lines
317-336 and 444-463).  The oracle `os` maps a buffer size to the call's
return code; on `ERANGE` the buffer size is doubled and the call retried,
otherwise the loop stops.  `fuel` bounds the unrolling: `none` means the
loop is still retrying after `fuel` iterations. -/
def lookupRetryLoop (os : Nat → Int) (bufsize : Nat) : Nat → Option (Int × Nat)
  | 0 => none
  | fuel + 1 =>
      if os bufsize = ERANGE then lookupRetryLoop os (bufsize * 2) fuel
      else some (os bufsize, bufsize)

/-- Identity-database read events. -/
def Event.isIdQuery : Event → Bool
  | .queryUser _ | .queryGroup _ | .queryGroupList _ _ => true
  | _ => false

/-- Filesystem-confinement syscall events. -/
def Event.isChrootSys : Event → Bool
  | .sysChdir _ | .sysChroot _ => true
  | _ => false

/-- The `setgroups` syscall events. -/
def Event.isSetgroups : Event → Bool
  | .sysSetgroups _ => true
  | _ => false

/-- The `setgid` syscall events. -/
def Event.isSetgid : Event → Bool
  | .sysSetgid _ => true
  | _ => false

/-- The `setuid` syscall events. -/
def Event.isSetuid : Event → Bool
  | .sysSetuid _ => true
  | _ => false

/-- Identity-mutating syscall events (`setgroups`, `setgid`, `setuid`). -/
def Event.isIdMut (e : Event) : Bool := e.isSetgroups || e.isSetgid || e.isSetuid

/-- All process-state-mutating syscall events. -/
def Event.isMutating : Event → Bool
  | .sysChdir _ | .sysChroot _ | .sysSetgroups _ | .sysSetgid _ | .sysSetuid _ => true
  | _ => false

/-- Rank of the identity-mutating syscalls: 2 = `setgroups`, 3 = `setgid`,
4 = `setuid`; every other event ranks 0. -/
def evKind : Event → Nat
  | .sysSetgroups _ => 2
  | .sysSetgid _ => 3
  | .sysSetuid _ => 4
  | _ => 0

/-- The ranks of the identity-mutating syscalls of a trace, in trace
order. -/
def idMutKinds (tr : List Event) : List Nat :=
  (tr.filter Event.isIdMut).map evKind

/-- The default supplementary groups that `do_idchange` merges into the
final set: the `getgrouplist` answer when requested and available, and
`[]` otherwise. -/
def defaultGroups (env : OsEnv) (c : PrivDrop) (gid : Nat) : List Nat :=
  if c.include_default_supplementary_groups then
    match c.user with
    | some u => (env.grouplist u gid).getD []
    | none => []
  else []

/-- The possible shapes of the identity-syscall tail of a pipeline trace:
nothing, a lone `setgroups` (which then failed), `setgroups` then
`setgid`, the full `setgroups`-`setgid`-`setuid` sequence, or a lone
`setuid` (no primary gid). -/
inductive IdSyscallShape : List Event → Prop where
  | empty : IdSyscallShape []
  | sg (l : List Nat) : IdSyscallShape [.sysSetgroups l]
  | sgGid (l : List Nat) (g : Nat) : IdSyscallShape [.sysSetgroups l, .sysSetgid g]
  | sgGidUid (l : List Nat) (g u : Nat) :
      IdSyscallShape [.sysSetgroups l, .sysSetgid g, .sysSetuid u]
  | uidOnly (u : Nat) : IdSyscallShape [.sysSetuid u]

lemma thenRun_forall {α β : Type} {P : Event → Prop}
    {a : List Event × Except PrivDropError α}
    {f : α → List Event × Except PrivDropError β}
    (h₁ : ∀ e ∈ a.1, P e) (h₂ : ∀ x, ∀ e ∈ (f x).1, P e) :
    ∀ e ∈ (thenRun a f).1, P e := by
  obtain ⟨ev, r⟩ := a
  cases r with
  | error err => simpa [thenRun] using h₁
  | ok x =>
      intro e he
      simp only [thenRun] at he
      rcases List.mem_append.mp he with he | he
      · exact h₁ e he
      · exact h₂ x e he

lemma thenRun_decomp {α β : Type} (a : List Event × Except PrivDropError α)
    (f : α → List Event × Except PrivDropError β) :
    ∃ t, (thenRun a f).1 = a.1 ++ t ∧ (t = [] ∨ ∃ x, t = (f x).1) := by
  obtain ⟨ev, r⟩ := a
  cases r with
  | error err => exact ⟨[], by simp [thenRun], Or.inl rfl⟩
  | ok x => exact ⟨(f x).1, by simp [thenRun], Or.inr ⟨x, rfl⟩⟩

lemma mem_thenRun_left {α β : Type} {a : List Event × Except PrivDropError α}
    {f : α → List Event × Except PrivDropError β} {e : Event}
    (h : e ∈ a.1) : e ∈ (thenRun a f).1 := by
  obtain ⟨t, ht, _⟩ := thenRun_decomp a f
  rw [ht]
  exact List.mem_append_left _ h

lemma thenRun_of_ok {α β : Type} {a : List Event × Except PrivDropError α}
    {f : α → List Event × Except PrivDropError β} {x : α}
    (h : a.2 = .ok x) : thenRun a f = (a.1 ++ (f x).1, (f x).2) := by
  obtain ⟨ev, r⟩ := a
  cases r <;> simp_all [thenRun]

lemma thenRun_of_error {α β : Type} {a : List Event × Except PrivDropError α}
    {f : α → List Event × Except PrivDropError β} {err : PrivDropError}
    (h : a.2 = .error err) : thenRun a f = (a.1, .error err) := by
  obtain ⟨ev, r⟩ := a
  cases r <;> simp_all [thenRun]

lemma isIdQuery_not_idMut {e : Event} (h : e.isIdQuery = true) : e.isIdMut = false := by
  cases e <;> simp_all [Event.isIdQuery, Event.isIdMut, Event.isSetgroups, Event.isSetgid,
    Event.isSetuid]

lemma isChrootSys_not_idMut {e : Event} (h : e.isChrootSys = true) : e.isIdMut = false := by
  cases e <;> simp_all [Event.isChrootSys, Event.isIdMut, Event.isSetgroups, Event.isSetgid,
    Event.isSetuid]

lemma isIdQuery_not_setuid {e : Event} (h : e.isIdQuery = true) : e.isSetuid = false := by
  cases e <;> simp_all [Event.isIdQuery, Event.isSetuid]

lemma isChrootSys_not_setuid {e : Event} (h : e.isChrootSys = true) : e.isSetuid = false := by
  cases e <;> simp_all [Event.isChrootSys, Event.isSetuid]

lemma isIdQuery_not_mutating {e : Event} (h : e.isIdQuery = true) : e.isMutating = false := by
  cases e <;> simp_all [Event.isIdQuery, Event.isMutating]

lemma lookup_user_queries (env : OsEnv) (user : String) (fallback : Bool) :
    ∀ e ∈ (lookup_user env user fallback).1, e.isIdQuery = true := by
  unfold lookup_user
  split
  · simp
  · intro e he
    simp only [List.mem_singleton] at he
    subst he
    rfl

lemma lookup_group_queries (env : OsEnv) (group : String) (fallback : Bool) :
    ∀ e ∈ (lookup_group env group fallback).1, e.isIdQuery = true := by
  unfold lookup_group
  split
  · simp
  · intro e he
    simp only [List.mem_singleton] at he
    subst he
    rfl

lemma lookup_group_seq_queries (env : OsEnv) (fallback : Bool) (gl : List String) :
    ∀ e ∈ (lookup_group_seq env fallback gl).1, e.isIdQuery = true := by
  induction gl with
  | nil => simp [lookup_group_seq]
  | cons g gs ih =>
      exact thenRun_forall (lookup_group_queries env g fallback)
        (fun gid => thenRun_forall ih (fun gids => by simp))

lemma lookup_ids_queries (env : OsEnv) (c : PrivDrop) :
    ∀ e ∈ (lookup_ids env c).1, e.isIdQuery = true := by
  unfold lookup_ids
  refine thenRun_forall ?_ (fun ids => ?_)
  · cases hcu : c.user with
    | some u => exact lookup_user_queries env u _
    | none => simp
  · refine thenRun_forall ?_ (fun ids2 => ?_)
    · cases hcg : c.group with
      | some g =>
          exact thenRun_forall (lookup_group_queries env g _) (fun gid => by simp)
      | none => simp
    · cases hcl : c.group_list with
      | some gl =>
          exact thenRun_forall (lookup_group_seq_queries env _ gl) (fun gids => by simp)
      | none => simp

lemma do_chroot_events (env : OsEnv) (c : PrivDrop) :
    ∀ e ∈ (do_chroot env c).1, e.isChrootSys = true := by
  unfold do_chroot
  split
  · simp
  · split
    · simp
    · refine thenRun_forall ?_ (fun _ => thenRun_forall ?_ (fun _ =>
        thenRun_forall ?_ (fun _ => by simp))) <;>
        simp [sysCall, Event.isChrootSys]

lemma idSyscalls_shape (env : OsEnv) (ids : UserIds) (groups : List Nat) :
    IdSyscallShape (idSyscalls env ids groups).1 := by
  obtain ⟨uid, gid, gl⟩ := ids
  unfold idSyscalls
  cases gid with
  | none =>
      cases uid with
      | none => simpa [thenRun] using IdSyscallShape.empty
      | some u => simpa [thenRun, sysCall] using IdSyscallShape.uidOnly u
  | some g =>
      cases hsg : env.setgroupsOk ((groups ++ [g]).dedup) with
      | false =>
          simpa [thenRun, sysCall, hsg] using IdSyscallShape.sg ((groups ++ [g]).dedup)
      | true =>
          cases hgd : env.setgidOk g with
          | false =>
              simpa [thenRun, sysCall, hsg, hgd] using
                IdSyscallShape.sgGid ((groups ++ [g]).dedup) g
          | true =>
              cases uid with
              | none =>
                  simpa [thenRun, sysCall, hsg, hgd] using
                    IdSyscallShape.sgGid ((groups ++ [g]).dedup) g
              | some u =>
                  simpa [thenRun, sysCall, hsg, hgd] using
                    IdSyscallShape.sgGidUid ((groups ++ [g]).dedup) g u

lemma do_idchange_decomp (env : OsEnv) (c : PrivDrop) (ids : UserIds) :
    ∃ tq ts, (do_idchange env c ids).1 = tq ++ ts ∧
      (∀ e ∈ tq, e.isIdQuery = true) ∧ IdSyscallShape ts := by
  unfold do_idchange
  by_cases he : env.euid = 0
  · simp only [he, ne_eq, not_true_eq_false, if_false, reduceIte]
    by_cases hdf : c.include_default_supplementary_groups
    · simp only [hdf, if_true, reduceIte]
      cases hcu : c.user with
      | none =>
          exact ⟨[], [], by simp [thenRun], by simp, .empty⟩
      | some u =>
          cases hgid : ids.gid with
          | none => exact ⟨[], [], by simp [thenRun], by simp, .empty⟩
          | some g =>
              cases hv : validCName u with
              | false =>
                  refine ⟨[], [], ?_, by simp, .empty⟩
                  simp [default_group_list, hv, thenRun]
              | true =>
                  refine ⟨[.queryGroupList u g],
                    (idSyscalls env ids
                      (((env.grouplist u g).getD []) ++ ids.group_list.getD [])).1,
                    ?_, by simp [Event.isIdQuery], idSyscalls_shape env ids _⟩
                  simp [default_group_list, hv, thenRun]
    · simp only [hdf, if_false, reduceIte]
      exact ⟨[], (idSyscalls env ids ([] ++ ids.group_list.getD [])).1,
        by simp [thenRun], by simp, idSyscalls_shape env ids _⟩
  · refine ⟨[], [], ?_, by simp, .empty⟩
    simp [he]

@[simp] lemma isIdMut_setgroups (l : List Nat) : (Event.sysSetgroups l).isIdMut = true := rfl

@[simp] lemma isIdMut_setgid (g : Nat) : (Event.sysSetgid g).isIdMut = true := rfl

@[simp] lemma isIdMut_setuid (u : Nat) : (Event.sysSetuid u).isIdMut = true := rfl

@[simp] lemma evKind_setgroups (l : List Nat) : evKind (.sysSetgroups l) = 2 := rfl

@[simp] lemma evKind_setgid (g : Nat) : evKind (.sysSetgid g) = 3 := rfl

@[simp] lemma evKind_setuid (u : Nat) : evKind (.sysSetuid u) = 4 := rfl

@[simp] lemma isSetuid_setgroups (l : List Nat) : (Event.sysSetgroups l).isSetuid = false := rfl

@[simp] lemma isSetuid_setgid (g : Nat) : (Event.sysSetgid g).isSetuid = false := rfl

lemma apply_decomp (env : OsEnv) (c : PrivDrop) :
    ∃ pre ts, (PrivDrop.apply env c).1 = pre ++ ts ∧
      (∀ e ∈ pre, e.isIdQuery = true ∨ e.isChrootSys = true) ∧ IdSyscallShape ts := by
  unfold PrivDrop.apply
  rw [thenRun_of_ok (show preload.2 = .ok () from rfl)]
  simp only [preload, List.nil_append]
  obtain ⟨t₁, ht₁, hcase₁⟩ := thenRun_decomp (lookup_ids env c) _
  rw [ht₁]
  rcases hcase₁ with rfl | ⟨ids, rfl⟩
  · exact ⟨(lookup_ids env c).1, [], by simp,
      fun e he => Or.inl (lookup_ids_queries env c e he), .empty⟩
  · obtain ⟨t₂, ht₂, hcase₂⟩ := thenRun_decomp (do_chroot env c) _
    rw [ht₂]
    rcases hcase₂ with rfl | ⟨c2, rfl⟩
    · refine ⟨(lookup_ids env c).1 ++ (do_chroot env c).1, [], by simp, ?_, .empty⟩
      intro e he
      rcases List.mem_append.mp he with he | he
      · exact Or.inl (lookup_ids_queries env c e he)
      · exact Or.inr (do_chroot_events env c e he)
    · obtain ⟨tq, ts, hts, htq, hshape⟩ := do_idchange_decomp env c2 ids
      rw [hts]
      refine ⟨(lookup_ids env c).1 ++ ((do_chroot env c).1 ++ tq), ts, by simp, ?_, hshape⟩
      intro e he
      rcases List.mem_append.mp he with he | he
      · exact Or.inl (lookup_ids_queries env c e he)
      · rcases List.mem_append.mp he with he | he
        · exact Or.inr (do_chroot_events env c e he)
        · exact Or.inl (htq e he)

lemma shape_kinds {ts : List Event} (h : IdSyscallShape ts) :
    (idMutKinds ts).Sublist [2, 3, 4] := by
  cases h <;>
    simp only [idMutKinds, List.filter, isIdMut_setgroups, isIdMut_setgid, isIdMut_setuid,
      List.map, evKind_setgroups, evKind_setgid, evKind_setuid] <;>
    decide

lemma shape_dropLast_no_setuid {ts : List Event} (h : IdSyscallShape ts) :
    ∀ e ∈ ts.dropLast, e.isSetuid = false := by
  cases h <;> simp [List.dropLast]

/-- C2: in every run of `apply`, the identity-mutating syscalls appear in
the fixed order `setgroups`, `setgid`, `setuid` (each at most once), and a
`setuid` event can only be the very last event of the whole pipeline
trace — nothing, in particular no group change, ever follows it. -/
theorem apply_identity_syscall_order (env : OsEnv) (c : PrivDrop) :
    (idMutKinds (PrivDrop.apply env c).1).Sublist [2, 3, 4] ∧
    (PrivDrop.apply env c).1.dropLast.all (fun e => !e.isSetuid) = true := by
  obtain ⟨pre, ts, htr, hpre, hshape⟩ := apply_decomp env c
  have hpreMut : ∀ e ∈ pre, ¬ e.isIdMut = true := by
    intro e he
    rcases hpre e he with h | h
    · simp [isIdQuery_not_idMut h]
    · simp [isChrootSys_not_idMut h]
  have hpreUid : ∀ e ∈ pre, e.isSetuid = false := by
    intro e he
    rcases hpre e he with h | h
    · exact isIdQuery_not_setuid h
    · exact isChrootSys_not_setuid h
  constructor
  · rw [htr]
    have hfil : idMutKinds (pre ++ ts) = idMutKinds ts := by
      have : pre.filter Event.isIdMut = [] := List.filter_eq_nil_iff.mpr hpreMut
      simp [idMutKinds, List.filter_append, this]
    rw [hfil]
    exact shape_kinds hshape
  · rw [htr, List.all_eq_true]
    intro e he
    rcases hts : ts with _ | ⟨e0, ts0⟩
    · subst hts
      simp only [List.append_nil] at he
      have : e ∈ pre := (List.dropLast_sublist pre).mem he
      simp [hpreUid e this]
    · rw [hts, List.dropLast_append_of_ne_nil _ (by simp)] at he
      rcases List.mem_append.mp he with hm | hm
      · simp [hpreUid e hm]
      · have := shape_dropLast_no_setuid hshape e (hts ▸ hm)
        simp [this]

/-- A fully permissive concrete oracle: effective root, `"nobody"`
resolving to uid/gid 65534, a two-element default supplementary group
answer, and every syscall succeeding. -/
def envRootAllOk : OsEnv where
  euid := 0
  pwRet := fun _ => 0
  pwEnt := fun n => if n = "nobody" then some (65534, 65534) else none
  grRet := fun _ => 0
  grEnt := fun _ => none
  grouplist := fun _ _ => some [100, 65534]
  chdirOk := fun _ => true
  chrootOk := fun _ => true
  setgroupsOk := fun _ => true
  setgidOk := fun _ => true
  setuidOk := fun _ => true

/-- The configuration of the C1 failing input: chroot to `/var/empty`,
switch to `nobody`, and request the default supplementary groups. -/
def cfgChrootDefaults : PrivDrop :=
  { chroot := some "/var/empty", user := some "nobody",
    include_default_supplementary_groups := true }

/-- C1 (refuted — code bug): with a chroot path, a resolvable user and
`include_default_supplementary_groups` set, the trace of `apply` contains
the `getgrouplist` identity-database query (index 4) strictly after the
`chroot` syscall (index 2): the default-supplementary-group lookup is
performed by `do_idchange`, which `apply` runs only after `do_chroot`. -/
theorem apply_queries_after_chroot :
    PrivDrop.apply envRootAllOk cfgChrootDefaults =
      ([.queryUser "nobody", .sysChdir "/var/empty", .sysChroot "/var/empty",
        .sysChdir "/", .queryGroupList "nobody" 65534,
        .sysSetgroups [100, 65534], .sysSetgid 65534, .sysSetuid 65534], .ok ()) ∧
    (PrivDrop.apply envRootAllOk cfgChrootDefaults).1.get? 2 =
      some (.sysChroot "/var/empty") ∧
    (PrivDrop.apply envRootAllOk cfgChrootDefaults).1.get? 4 =
      some (.queryGroupList "nobody" 65534) ∧
    Event.isIdQuery (.queryGroupList "nobody" 65534) = true :=
  ⟨rfl, rfl, rfl, rfl⟩

/-- C3 (counterexample): the claim fails in two ways.  With the empty
configuration and a non-root effective uid, `apply` returns the
`InsufficientPrivilege` error (because `do_idchange` runs `uidcheck`
unconditionally) instead of succeeding; and even as root, the empty
configuration with `include_default_supplementary_groups` set fails. -/
theorem apply_noop_claim_cex :
    PrivDrop.apply { envRootAllOk with euid := 1000 } {} =
      ([], .error insufficientPrivilege) ∧
    PrivDrop.apply envRootAllOk { include_default_supplementary_groups := true } =
      ([], .error (.withDescription
        "Unable to determine default supplementary groups without a user name and a base gid")) :=
  ⟨rfl, rfl⟩

/-- C3 (amended): with no chroot path, no user, no group, no group list
and default supplementary groups not requested, `apply` issues no OS
interaction at all; it succeeds when the effective uid is 0 and returns
the `InsufficientPrivilege` error otherwise. -/
theorem apply_noop_amended (env : OsEnv) (c : PrivDrop)
    (hch : c.chroot = none) (hu : c.user = none) (hg : c.group = none)
    (hgl : c.group_list = none)
    (hdf : c.include_default_supplementary_groups = false) :
    (env.euid = 0 → PrivDrop.apply env c = ([], .ok ())) ∧
    (env.euid ≠ 0 → PrivDrop.apply env c = ([], .error insufficientPrivilege)) := by
  constructor <;> intro he <;>
    simp [PrivDrop.apply, preload, thenRun, lookup_ids, do_chroot, do_idchange, idSyscalls,
      hch, hu, hg, hgl, hdf, he]

/-- Witness for the amended C3 at a concrete input. -/
theorem apply_noop_amended_witness :
    PrivDrop.apply envRootAllOk {} = ([], .ok ()) :=
  (apply_noop_amended envRootAllOk {} rfl rfl rfl rfl rfl).1 rfl

lemma idSyscalls_setgroups_mem (env : OsEnv) (ids : UserIds) (groups : List Nat) (gid : Nat)
    (hgid : ids.gid = some gid) :
    Event.sysSetgroups ((groups ++ [gid]).dedup) ∈ (idSyscalls env ids groups).1 := by
  unfold idSyscalls
  rw [hgid]
  exact mem_thenRun_left (mem_thenRun_left (by simp [sysCall]))

/-- C4: whenever the identity-change phase runs (effective root) with a
resolved primary gid and the default-group request is satisfiable, the
list handed to `setgroups` has no duplicates and contains exactly the
union of the default supplementary groups, the resolved explicit group
list, and the primary gid. -/
theorem setgroups_dedup_union (env : OsEnv) (c : PrivDrop) (ids : UserIds) (gid : Nat)
    (henv : env.euid = 0) (hgid : ids.gid = some gid)
    (hdg : c.include_default_supplementary_groups = false ∨
      ∃ u, c.user = some u ∧ validCName u = true) :
    ∃ l, Event.sysSetgroups l ∈ (do_idchange env c ids).1 ∧ l.Nodup ∧
      ∀ g : Nat, g ∈ l ↔
        (g ∈ defaultGroups env c gid ∨ g ∈ ids.group_list.getD [] ∨ g = gid) := by
  unfold do_idchange
  rw [if_neg (by simp [henv] : ¬ env.euid ≠ 0)]
  by_cases hdf : c.include_default_supplementary_groups
  · rcases hdg with hdf' | ⟨u, hu, hv⟩
    · exact absurd hdf (by simp [hdf'])
    · rw [if_pos hdf, hu, hgid]
      refine ⟨(((env.grouplist u gid).getD [] ++ ids.group_list.getD []) ++ [gid]).dedup,
        ?_, List.nodup_dedup _, ?_⟩
      · rw [thenRun_of_ok (show
          (thenRun (default_group_list env u gid)
            (fun dflt => ([], Except.ok (dflt.getD [])))).2 =
            Except.ok ((env.grouplist u gid).getD []) from
          by simp [thenRun, default_group_list, hv])]
        refine List.mem_append_right _ ?_
        exact idSyscalls_setgroups_mem env ids _ gid hgid
      · intro g
        simp [List.mem_dedup, defaultGroups, hdf, hu, or_assoc]
  · simp only [hdf, Bool.false_eq_true, if_false]
    refine ⟨((ids.group_list.getD []) ++ [gid]).dedup, ?_, List.nodup_dedup _, ?_⟩
    · rw [thenRun_of_ok (show (([], Except.ok []) :
          List Event × Except PrivDropError (List Nat)).2 = Except.ok [] from rfl)]
      refine List.mem_append_right _ ?_
      exact idSyscalls_setgroups_mem env ids _ gid hgid
    · intro g
      simp [List.mem_dedup, defaultGroups, hdf]

/-- Witness for C4 at a concrete input. -/
theorem setgroups_dedup_union_witness :
    ∃ l, Event.sysSetgroups l ∈
        (do_idchange envRootAllOk cfgChrootDefaults
          { uid := some 65534, gid := some 65534 }).1 ∧
      l.Nodup ∧
      ∀ g : Nat, g ∈ l ↔
        (g ∈ defaultGroups envRootAllOk cfgChrootDefaults 65534 ∨
          g ∈ (({ uid := some 65534, gid := some 65534 } : UserIds)).group_list.getD [] ∨
          g = 65534) :=
  setgroups_dedup_union envRootAllOk cfgChrootDefaults _ 65534 rfl rfl
    (Or.inr ⟨"nobody", rfl, rfl⟩)

/-- C5 (counterexample): a non-root caller whose configuration requests an
identity change can receive an error other than `InsufficientPrivilege`:
name resolution runs first, so an unresolvable user yields the
`UserNotFound` error instead. -/
theorem insufficient_privilege_cex :
    PrivDrop.apply { envRootAllOk with euid := 1000, pwEnt := fun _ => none }
        { user := some "nosuchuser" } =
      ([.queryUser "nosuchuser"], .error (.withDescription "User not found")) ∧
    PrivDropError.withDescription "User not found" ≠ insufficientPrivilege :=
  ⟨rfl, by decide⟩

/-- C5 (amended): when every configured name resolves, a non-root caller
whose configuration requests a chroot or an identity change receives
exactly the `InsufficientPrivilege` error, and the trace contains no
process-state-mutating syscall at all — in particular the error precedes
any `chdir` or `chroot` attempt. -/
theorem insufficient_privilege_amended (env : OsEnv) (c : PrivDrop) (ids : UserIds)
    (henv : env.euid ≠ 0)
    (_hreq : c.chroot ≠ none ∨ c.user ≠ none ∨ c.group ≠ none ∨ c.group_list ≠ none)
    (hres : (lookup_ids env c).2 = .ok ids) :
    (PrivDrop.apply env c).2 = .error insufficientPrivilege ∧
    ∀ e ∈ (PrivDrop.apply env c).1, e.isMutating = false := by
  have happ : PrivDrop.apply env c =
      ((lookup_ids env c).1 ++
        (thenRun (do_chroot env c) (fun c2 => do_idchange env c2 ids)).1,
        (thenRun (do_chroot env c) (fun c2 => do_idchange env c2 ids)).2) := by
    unfold PrivDrop.apply
    rw [thenRun_of_ok (show preload.2 = .ok () from rfl)]
    rw [thenRun_of_ok hres]
    simp [preload]
  have hchr : thenRun (do_chroot env c) (fun c2 => do_idchange env c2 ids) =
      ([], .error insufficientPrivilege) := by
    cases hc : c.chroot with
    | some path =>
        rw [thenRun_of_error (show (do_chroot env c).2 = .error insufficientPrivilege from
          by simp [do_chroot, hc, henv])]
        simp [do_chroot, hc, henv]
    | none =>
        rw [thenRun_of_ok (show (do_chroot env c).2 = .ok c from by simp [do_chroot, hc])]
        simp [do_chroot, do_idchange, hc, henv, thenRun]
  rw [happ, hchr]
  refine ⟨rfl, ?_⟩
  intro e he
  simp only [List.append_nil] at he
  exact isIdQuery_not_mutating (lookup_ids_queries env c e he)

/-- Witness for the amended C5 at a concrete input. -/
theorem insufficient_privilege_amended_witness :
    (PrivDrop.apply { envRootAllOk with euid := 1000 } { chroot := some "/jail" }).2 =
      .error insufficientPrivilege ∧
    ∀ e ∈ (PrivDrop.apply { envRootAllOk with euid := 1000 } { chroot := some "/jail" }).1,
      e.isMutating = false :=
  insufficient_privilege_amended _ _ {} (by decide) (Or.inl (by decide)) rfl

/-- C6 (counterexample): a user resolved through numeric fallback (uid
present, gid absent) together with a default-supplementary-groups request
makes `do_idchange` fail before any syscall: `setuid` is not performed
even though a uid was resolved. -/
theorem gidless_idchange_cex :
    PrivDrop.apply { envRootAllOk with pwEnt := fun _ => none }
        { user := some "1000", fallback_to_ids_if_names_are_numeric := true,
          include_default_supplementary_groups := true } =
      ([.queryUser "1000"],
        .error (.withDescription
          "Unable to determine default supplementary groups without a user name and a base gid")) ∧
    ([Event.queryUser "1000"].all (fun e => !e.isSetuid)) = true :=
  ⟨rfl, rfl⟩

/-- C6 (amended): when the identity-change phase runs as root with no
resolved primary gid and default supplementary groups were not requested,
it issues neither `setgroups` nor `setgid` — a resolved explicit group
list is dropped unapplied, inherited supplementary groups are kept — and
the trace is exactly a `setuid` when a uid was resolved, empty
otherwise. -/
theorem gidless_idchange_amended (env : OsEnv) (c : PrivDrop) (ids : UserIds)
    (henv : env.euid = 0) (hgid : ids.gid = none)
    (hdf : c.include_default_supplementary_groups = false) :
    (do_idchange env c ids).1 =
      (match ids.uid with
       | some uid => [Event.sysSetuid uid]
       | none => []) := by
  cases hu : ids.uid <;>
    simp [do_idchange, idSyscalls, thenRun, sysCall, henv, hgid, hdf, hu]

/-- Witness for the amended C6 at a concrete input. -/
theorem gidless_idchange_amended_witness :
    (do_idchange envRootAllOk {}
        { uid := some 42, gid := none, group_list := some [7, 8] }).1 =
      [Event.sysSetuid 42] :=
  gidless_idchange_amended envRootAllOk {}
    { uid := some 42, gid := none, group_list := some [7, 8] } rfl rfl rfl

/-- C7 (counterexample): the doubling retry is not bounded by any maximum
buffer size: against an oracle that reports `ERANGE` for every buffer
size, the lookup loop never completes, however much fuel it is given. -/
theorem buffer_retry_unbounded_cex :
    ¬ ∃ fuel r, lookupRetryLoop (fun _ => ERANGE) INITIAL_BUFFER_SIZE fuel = some r := by
  rintro ⟨fuel, r, h⟩
  have hall : ∀ f b, lookupRetryLoop (fun _ => ERANGE) b f = none := by
    intro f
    induction f with
    | zero => intro b; rfl
    | succ n ih => intro b; simp [lookupRetryLoop, ih]
  simp [hall] at h

/-- C7 (amended): a query answered with `ERANGE` is always retried with a
buffer of doubled size, and the loop ends only on a non-`ERANGE` answer —
there is no maximum buffer size bounding the retries. -/
theorem buffer_retry_amended :
    (∀ (os : Nat → Int) (bufsize fuel : Nat), os bufsize = ERANGE →
      lookupRetryLoop os bufsize (fuel + 1) = lookupRetryLoop os (bufsize * 2) fuel) ∧
    (∀ (os : Nat → Int) (bufsize fuel : Nat) (ret : Int) (final : Nat),
      lookupRetryLoop os bufsize fuel = some (ret, final) → ret ≠ ERANGE) := by
  constructor
  · intro os bufsize fuel h
    simp [lookupRetryLoop, h]
  · intro os bufsize fuel
    induction fuel generalizing bufsize with
    | zero => intro ret final h; simp [lookupRetryLoop] at h
    | succ n ih =>
        intro ret final h
        by_cases he : os bufsize = ERANGE
        · rw [lookupRetryLoop, if_pos he] at h
          exact ih (bufsize * 2) ret final h
        · rw [lookupRetryLoop, if_neg he] at h
          obtain ⟨h1, h2⟩ := Prod.mk.injEq .. ▸ (Option.some.injEq .. ▸ h)
          exact h1 ▸ he

/-- Witness for the amended C7 at a concrete input: one `ERANGE` answer at
the initial size makes the loop retry at the doubled size. -/
theorem buffer_retry_amended_witness :
    lookupRetryLoop (fun b => if b = 4096 then ERANGE else 0) 4096 (1 + 1) =
      lookupRetryLoop (fun b => if b = 4096 then ERANGE else 0) (4096 * 2) 1 :=
  buffer_retry_amended.1 (fun b => if b = 4096 then ERANGE else 0) 4096 1 rfl

/-- C8 (counterexample): a user-database failure whose return code is
neither `0` nor `ENOENT` (here `5`, i.e. `EIO`) with fallback disabled is
reported as the distinct lookup-failure error, not as `UserNotFound`. -/
theorem lookup_user_error_kind_cex :
    (lookup_user { envRootAllOk with pwRet := fun _ => 5, pwEnt := fun _ => none }
        "someuser" false).2 =
      .error (.withDescription "Failed to look up user") ∧
    PrivDropError.withDescription "Failed to look up user" ≠
      PrivDropError.withDescription "User not found" :=
  ⟨rfl, by decide⟩

/-- C8 (amended): a successful database lookup yields the entry's uid and
gid; an absent entry (`ENOENT`, or a clean return with a null entry) with
fallback disabled fails with `UserNotFound`; a database error with any
other nonzero code fails with the distinct lookup-failure error; a failed
lookup with fallback enabled and a name parsing as a non-negative 32-bit
integer yields that integer as the uid with no gid. -/
theorem lookup_user_amended (env : OsEnv) (user : String)
    (hv : validCName user = true) :
    (∀ uid gid, env.pwRet user = 0 → env.pwEnt user = some (uid, gid) →
      ∀ fb, (lookup_user env user fb).2 =
        .ok { uid := some uid, gid := some gid, group_list := none }) ∧
    ((env.pwRet user = ENOENT ∨ (env.pwRet user = 0 ∧ env.pwEnt user = none)) →
      (lookup_user env user false).2 = .error (.withDescription "User not found")) ∧
    ((env.pwRet user ≠ 0 ∧ env.pwRet user ≠ ENOENT) →
      (lookup_user env user false).2 = .error (.withDescription "Failed to look up user")) ∧
    ((env.pwRet user ≠ 0 ∨ env.pwEnt user = none) → ∀ n, parseU32 user = some n →
      (lookup_user env user true).2 =
        .ok { uid := some n, gid := none, group_list := none }) := by
  refine ⟨?_, ?_, ?_, ?_⟩
  · intro uid gid hret hent fb
    simp [lookup_user, hv, hent, hret]
  · rintro (hret | ⟨hret, hent⟩)
    · cases hent : env.pwEnt user with
      | none => simp [lookup_user, hv, hent, userLookupFailure, hret, ENOENT]
      | some p =>
          obtain ⟨uu, gg⟩ := p
          simp [lookup_user, hv, hent, userLookupFailure, hret, ENOENT]
    · simp [lookup_user, hv, hent, userLookupFailure, hret]
  · rintro ⟨h1, h2⟩
    cases hent : env.pwEnt user with
    | none => simp [lookup_user, hv, hent, userLookupFailure, h1, h2]
    | some p =>
        obtain ⟨uu, gg⟩ := p
        simp [lookup_user, hv, hent, userLookupFailure, h1, h2]
  · rintro (hret | hent) n hn
    · cases hent : env.pwEnt user with
      | none => simp [lookup_user, hv, hent, userLookupFailure, hret, hn]
      | some p =>
          obtain ⟨uu, gg⟩ := p
          simp [lookup_user, hv, hent, userLookupFailure, hret, hn]
    · simp [lookup_user, hv, hent, userLookupFailure, hn]

/-- Witness for the amended C8 at a concrete input. -/
theorem lookup_user_amended_witness :
    (lookup_user { envRootAllOk with pwEnt := fun _ => some (7, 8) } "alice" false).2 =
      .ok { uid := some 7, gid := some 8, group_list := none } :=
  (lookup_user_amended { envRootAllOk with pwEnt := fun _ => some (7, 8) } "alice"
    (by decide)).1 7 8 rfl rfl false

lemma idSyscalls_snd_ne_dflt (env : OsEnv) (ids : UserIds) (groups : List Nat) :
    (idSyscalls env ids groups).2 ≠ .error (.withDescription
      "Unable to determine default supplementary groups without a user name and a base gid") := by
  obtain ⟨uid, gid, gl⟩ := ids
  cases gid <;> cases uid <;>
    simp [idSyscalls, thenRun, sysCall] <;>
    split_ifs <;> simp_all

/-- C9: with effective root, `do_idchange` returns the
`DefaultGroupLookupUnavailable` error exactly when default supplementary
groups were requested but the configuration has no user name or no
primary gid was resolved; and with both present the `getgrouplist` query
itself never produces an error — a failing or empty membership query
merely yields the absent result. -/
theorem default_group_unavailable_iff (env : OsEnv) (c : PrivDrop) (ids : UserIds)
    (henv : env.euid = 0) :
    ((do_idchange env c ids).2 = .error (.withDescription
        "Unable to determine default supplementary groups without a user name and a base gid") ↔
      (c.include_default_supplementary_groups = true ∧
        (c.user = none ∨ ids.gid = none))) ∧
    (∀ user gid, validCName user = true →
      (default_group_list env user gid).2 = .ok (env.grouplist user gid)) := by
  constructor
  · unfold do_idchange
    rw [if_neg (by simp [henv] : ¬ env.euid ≠ 0)]
    by_cases hdf : c.include_default_supplementary_groups
    · cases hcu : c.user with
      | none => simp [hdf, thenRun]
      | some u =>
          cases hgid : ids.gid with
          | none => simp [hdf, thenRun]
          | some g =>
              rw [if_pos hdf]
              cases hv : validCName u with
              | false =>
                  rw [thenRun_of_error (show
                    (thenRun (default_group_list env u g)
                      (fun dflt => ([], Except.ok (dflt.getD [])))).2 =
                      .error (.withDescription "Invalid username") from
                    by simp [default_group_list, hv, thenRun])]
                  simp
              | true =>
                  rw [thenRun_of_ok (show
                    (thenRun (default_group_list env u g)
                      (fun dflt => ([], Except.ok (dflt.getD [])))).2 =
                      Except.ok ((env.grouplist u g).getD []) from
                    by simp [default_group_list, hv, thenRun])]
                  simp [idSyscalls_snd_ne_dflt]
    · simp [hdf, thenRun, idSyscalls_snd_ne_dflt]
  · intro user gid hv
    simp [default_group_list, hv]

/-- Witness for C9 at a concrete input. -/
theorem default_group_unavailable_iff_witness :
    (do_idchange envRootAllOk { include_default_supplementary_groups := true } {}).2 =
      .error (.withDescription
        "Unable to determine default supplementary groups without a user name and a base gid") :=
  (default_group_unavailable_iff envRootAllOk
    { include_default_supplementary_groups := true } {} rfl).1.mpr ⟨rfl, Or.inl rfl⟩

/-- C10: with effective root and a configured chroot path, the confinement
phase attempts exactly `chdir(path)`, then `chroot(path)`, then
`chdir("/")`; the first failing step aborts with its error and the later
steps are not attempted. -/
theorem do_chroot_sequence (env : OsEnv) (c : PrivDrop) (path : String)
    (henv : env.euid = 0) (hp : c.chroot = some path) :
    (env.chdirOk path = false →
      do_chroot env c = ([.sysChdir path],
        .error (.withDescription "Failed to change to chroot directory"))) ∧
    (env.chdirOk path = true → env.chrootOk path = false →
      do_chroot env c = ([.sysChdir path, .sysChroot path],
        .error (.withDescription "Failed to change root directory"))) ∧
    (env.chdirOk path = true → env.chrootOk path = true → env.chdirOk "/" = false →
      do_chroot env c = ([.sysChdir path, .sysChroot path, .sysChdir "/"],
        .error (.withDescription "Failed to change to root directory after chroot"))) ∧
    (env.chdirOk path = true → env.chrootOk path = true → env.chdirOk "/" = true →
      do_chroot env c = ([.sysChdir path, .sysChroot path, .sysChdir "/"],
        .ok { c with chroot := none })) := by
  refine ⟨?_, ?_, ?_, ?_⟩ <;> intros <;>
    simp_all [do_chroot, hp, henv, thenRun, sysCall]

/-- Witness for C10 at a concrete input: the successful sequence. -/
theorem do_chroot_sequence_witness :
    do_chroot envRootAllOk { chroot := some "/var/empty" } =
      ([.sysChdir "/var/empty", .sysChroot "/var/empty", .sysChdir "/"], .ok {}) :=
  (do_chroot_sequence envRootAllOk { chroot := some "/var/empty" } "/var/empty"
    rfl rfl).2.2.2 rfl rfl rfl
